import Mathlib

/-!
Verification of the merental-be-3 application/domain core.

This file shallowly embeds the domain entities (Car, Regional, User), the
result/error-code schemas, and the use cases of the application layer, and
proves properties about them.

Modelling conventions:
- Python exceptions are modelled by the `PyExc` type; a function that can
  raise returns `Except PyExc A`.  A try/except block becomes a `match` on
  the `Except` value.
- Python `int` is `Int`, `float` is `Rat`, `str` is `String`,
  `None`-able parameters are `Option _`.
- Repository ports (section 6 of the spec) are records of functions.  Read
  operations (find_by_id, find_all, find_by_username, find_by_plate_number,
  find_by_regional_id) return plain values; write operations (save, update,
  delete) return a `WriteOutcome`, which is either the written value or one
  of the storage-fault signals (`IntegrityError`, `DatabaseError`) that the
  django.db layer can raise and the use cases catch.
- A use case object holds only its repositories, so `execute` is embedded as
  a function taking the repositories first.
-/

/-- Python exception values that the embedded code can raise.
`domainValidationError` carries the `(message, code)` pair of
src/domain/exceptions.py.  `attributeError` records the type and attribute
name of a failed attribute lookup.  `integrityError` / `databaseError` stand
for django.db.IntegrityError / django.db.DatabaseError (IntegrityError is a
subclass of DatabaseError, which matters for `except DatabaseError` blocks).
`invalidRegionalName` — Modelled from the spec: the class
`InvalidRegionalNameError` is raised by src/domain/entities/regional.py and
caught by the regional create/update use cases but is missing from
src/domain/exceptions.py; per spec sections 4.2 and 7 it is a domain
validation error carrying a human message. -/
inductive PyExc where
  | valueError (message : String)
  | domainValidationError (message : String) (code : String)
  | invalidRegionalName (message : String)
  | attributeError (typeName : String) (attrName : String)
  | integrityError
  | databaseError
  deriving DecidableEq, Repr

/-- Outcome of a repository write operation (save/update/delete): the value,
or one of the storage-fault exceptions raised by the database layer. -/
inductive WriteOutcome (α : Type) where
  | ok (value : α)
  | integrityError
  | databaseError
  deriving DecidableEq, Repr

/-! ## Python string helpers -/

/-- Python `str.strip()`: remove leading and trailing whitespace
(kernel-computable embedding over the character list). -/
def pyStrip (s : String) : String :=
  String.mk (((s.data.dropWhile Char.isWhitespace).reverse.dropWhile Char.isWhitespace).reverse)

/-- Python `str.lower()` (ASCII, which covers the validated character
sets). -/
def pyLower (s : String) : String := String.mk (s.data.map Char.toLower)

/-- Python `s.strip().lower()`, the username normalization. -/
def pyStripLower (s : String) : String := pyLower (pyStrip s)

/-! ## Validation constants (src/domain/entities/car.py lines 10-15) -/

def CAR_NAME_MIN : Nat := 3
def CAR_NAME_MAX : Nat := 100
def BRAND_MIN : Nat := 2
def BRAND_MAX : Nat := 50
def MODEL_MIN : Nat := 1
def MODEL_MAX : Nat := 50
def YEAR_MIN : Int := 1900
def YEAR_MAX : Int := 2027
def PLATE_NUMBER_MIN : Nat := 3
def PLATE_NUMBER_MAX : Nat := 20
def COLOR_MIN : Nat := 2
def COLOR_MAX : Nat := 30

/-! ## Car entity (src/domain/entities/car.py) -/

/-- The Car dataclass fields.  A bare `Car` record is an un-validated
assignment of fields; `Car.construct` is the validating constructor
(`__init__` + `__post_init__`). -/
structure Car where
  name : String
  brand : String
  model : String
  year : Int
  plate_number : String
  color : String
  price_per_day : Rat
  regional_id : Int
  id : Option Int := none
  deriving DecidableEq, Repr

/-- Embeds `Car._validate_name` (car.py lines 63-77): `not self.name` is the Python
emptiness test on the string. -/
def Car._validate_name (c : Car) : Except PyExc Unit :=
  if c.name = "" ∨ c.name.length < CAR_NAME_MIN ∨ c.name.length > CAR_NAME_MAX then
    .error (.domainValidationError "Name must be between 3 and 100 characters" "INVALID_CAR_NAME")
  else .ok ()

/-- Embeds `Car._validate_brand` (car.py lines 79-89). -/
def Car._validate_brand (c : Car) : Except PyExc Unit :=
  if c.brand = "" ∨ c.brand.length < BRAND_MIN ∨ c.brand.length > BRAND_MAX then
    .error (.domainValidationError "Brand must be between 2 and 50 characters" "INVALID_BRAND")
  else .ok ()

/-- Embeds `Car._validate_model` (car.py lines 91-101). -/
def Car._validate_model (c : Car) : Except PyExc Unit :=
  if c.model = "" ∨ c.model.length < MODEL_MIN ∨ c.model.length > MODEL_MAX then
    .error (.domainValidationError "Model must be between 1 and 50 characters" "INVALID_MODEL")
  else .ok ()

/-- Embeds `Car._validate_year` (car.py lines 103-116); the `isinstance(..., int)`
guard is discharged by the typed embedding. -/
def Car._validate_year (c : Car) : Except PyExc Unit :=
  if c.year < YEAR_MIN ∨ c.year > YEAR_MAX then
    .error (.domainValidationError "Year must be between 1900 and 2027" "INVALID_YEAR")
  else .ok ()

/-- Embeds `Car._validate_plate_number` (car.py lines 118-132). -/
def Car._validate_plate_number (c : Car) : Except PyExc Unit :=
  if c.plate_number = "" ∨ c.plate_number.length < PLATE_NUMBER_MIN ∨
      c.plate_number.length > PLATE_NUMBER_MAX then
    .error (.domainValidationError "Plate number must be between 3 and 20 characters" "INVALID_PLATE_NUMBER")
  else .ok ()

/-- Embeds `Car._validate_color` (car.py lines 134-144). -/
def Car._validate_color (c : Car) : Except PyExc Unit :=
  if c.color = "" ∨ c.color.length < COLOR_MIN ∨ c.color.length > COLOR_MAX then
    .error (.domainValidationError "Color must be between 2 and 30 characters" "INVALID_COLOR")
  else .ok ()

/-- Embeds `Car._validate_price_per_day` (car.py lines 146-155); the numeric
`isinstance` guard is discharged by the typed embedding. -/
def Car._validate_price_per_day (c : Car) : Except PyExc Unit :=
  if c.price_per_day < 0 then
    .error (.domainValidationError "Price per day must be a non-negative number" "INVALID_PRICE")
  else .ok ()

/-- Embeds `Car._validate_regional_id` (car.py lines 157-166). -/
def Car._validate_regional_id (c : Car) : Except PyExc Unit :=
  if c.regional_id ≤ 0 then
    .error (.domainValidationError "Regional ID must be a positive integer" "INVALID_REGIONAL_ID")
  else .ok ()

/-- Embeds `Car._validate_all` (car.py lines 52-61): the eight validators in their
fixed order, fail-fast. -/
def Car._validate_all (c : Car) : Except PyExc Unit := do
  c._validate_name
  c._validate_brand
  c._validate_model
  c._validate_year
  c._validate_plate_number
  c._validate_color
  c._validate_price_per_day
  c._validate_regional_id

/-- The validating constructor: dataclass `__init__` followed by
`__post_init__` (car.py lines 48-50). -/
def Car.construct (name brand model : String) (year : Int) (plate_number color : String)
    (price_per_day : Rat) (regional_id : Int) (id : Option Int := none) :
    Except PyExc Car :=
  let c : Car :=
    { name := name, brand := brand, model := model, year := year,
      plate_number := plate_number, color := color,
      price_per_day := price_per_day, regional_id := regional_id, id := id }
  match c._validate_all with
  | .error e => .error e
  | .ok _ => .ok c

/-! ## Car.update (car.py lines 168-197) -/

/-- One keyword argument of `Car.update(**kwargs)`.  The eight updatable
fields carry a value of the field's type; `other key` models a keyword
argument whose name `key` is not one of the eight updatable field names. -/
inductive Kwarg where
  | name (v : String)
  | brand (v : String)
  | model (v : String)
  | year (v : Int)
  | plate_number (v : String)
  | color (v : String)
  | price_per_day (v : Rat)
  | regional_id (v : Int)
  | other (key : String)
  deriving DecidableEq, Repr

/-- The keyword (kwargs key) of an argument. -/
def Kwarg.key : Kwarg → String
  | .name _ => "name"
  | .brand _ => "brand"
  | .model _ => "model"
  | .year _ => "year"
  | .plate_number _ => "plate_number"
  | .color _ => "color"
  | .price_per_day _ => "price_per_day"
  | .regional_id _ => "regional_id"
  | .other key => key

/-- The `allowed_fields` set of `Car.update` (car.py lines 179-188). -/
def allowed_fields : List String :=
  ["name", "brand", "model", "year", "plate_number", "color", "price_per_day", "regional_id"]

/-- Embeds `setattr(self, key, value)` for an allowed field (car.py line 194). -/
def Car.setField (c : Car) : Kwarg → Car
  | .name v => { c with name := v }
  | .brand v => { c with brand := v }
  | .model v => { c with model := v }
  | .year v => { c with year := v }
  | .plate_number v => { c with plate_number := v }
  | .color v => { c with color := v }
  | .price_per_day v => { c with price_per_day := v }
  | .regional_id v => { c with regional_id := v }
  | .other _ => c

/-- The kwargs loop of `Car.update` (car.py lines 189-194): each key not in
`allowed_fields` raises `INVALID_FIELD`, every other key is applied with
`setattr`. -/
def Car.applyKwargs (c : Car) (kwargs : List Kwarg) : Except PyExc Car :=
  kwargs.foldlM
    (fun acc a =>
      match a with
      | .other key =>
          .error (.domainValidationError ("Cannot update field \x27" ++ key ++ "\x27") "INVALID_FIELD")
      | a => .ok (acc.setField a))
    c

/-- Embeds `Car.update` (car.py lines 168-197): apply every provided field, then
re-validate all fields of the mutated entity. -/
def Car.update (c : Car) (kwargs : List Kwarg) : Except PyExc Car :=
  match c.applyKwargs kwargs with
  | .error e => .error e
  | .ok c2 =>
    match c2._validate_all with
    | .error e => .error e
    | .ok _ => .ok c2

/-! ## Regional entity (src/domain/entities/regional.py) -/

/-- The Regional dataclass fields. -/
structure Regional where
  name : String
  id : Option Int := none
  deriving DecidableEq, Repr

/-- Embeds `Regional._validate_name` (regional.py lines 33-51).  It raises the
`InvalidRegionalNameError` constructor of `PyExc`; that class is missing
from src/domain/exceptions.py and is modelled from the spec (see `PyExc`). -/
def Regional._validate_name (r : Regional) : Except PyExc Unit :=
  if r.name = "" then .error (.invalidRegionalName "Regional name is required.")
  else if r.name.length < 2 then
    .error (.invalidRegionalName "Regional name must be at least 2 characters.")
  else if r.name.length > 50 then
    .error (.invalidRegionalName "Regional name must not exceed 50 characters.")
  else .ok ()

/-- The validating constructor: dataclass `__init__` followed by
`__post_init__` (regional.py lines 24-31): trim the name when non-empty,
then validate it. -/
def Regional.construct (name : String) (id : Option Int := none) : Except PyExc Regional :=
  let r : Regional := { name := name, id := id }
  let r := if r.name ≠ "" then { r with name := pyStrip r.name } else r
  match r._validate_name with
  | .error e => .error e
  | .ok _ => .ok r

/-! ## User entity (src/domain/entities/user.py) -/

/-- The User dataclass fields. -/
structure User where
  username : String
  password : String
  id : Option Int := none
  is_hashed : Bool := false
  deriving DecidableEq, Repr

/-- The special-character set of `PASSWORD_SPECIAL_CHARS_PATTERN`
(user.py line 11 and register_user.py line 15). -/
def PASSWORD_SPECIAL_CHARS : String :=
  "!@#$%^&*(),.?\":\x7b\x7d|<>_=+/\\;:[]~\x60-"

/-- Embeds `User._validate_username` (user.py lines 45-54): 3-32 characters,
alphanumeric and underscore only (`^[a-zA-Z0-9_]+$`). -/
def User.usernameValid (username : String) : Bool :=
  3 ≤ username.length ∧ username.length ≤ 32 ∧
    username.toList.all (fun ch => ch.isAlphanum ∨ ch = '_')

/-- Embeds `User._validate_password` (user.py lines 56-73): 8-128 characters with
at least one uppercase letter, lowercase letter, digit, and special
character. -/
def User.passwordValid (password : String) : Bool :=
  8 ≤ password.length ∧ password.length ≤ 128 ∧
    password.toList.any Char.isUpper ∧ password.toList.any Char.isLower ∧
    password.toList.any Char.isDigit ∧
    password.toList.any (fun ch => PASSWORD_SPECIAL_CHARS.data.contains ch)

/-- The validating constructor: dataclass `__init__` followed by
`__post_init__` (user.py lines 32-42): normalize the username
(trim + lowercase), always validate the username, and validate password
strength only when `is_hashed` is false.  `InvalidUsernameError` and
`InvalidPasswordError` are `DomainValidationError`s with fixed default
messages and codes (src/domain/exceptions.py lines 13-34). -/
def User.construct (username password : String) (id : Option Int := none)
    (is_hashed : Bool := false) : Except PyExc User := do
  let u : User := { username := username, password := password, id := id, is_hashed := is_hashed }
  let u := { u with username := pyStripLower u.username }
  if ¬User.usernameValid u.username then
    throw (.domainValidationError
      "Username must be 3-32 characters and contain only letters, numbers, and underscores."
      "INVALID_USERNAME")
  if ¬u.is_hashed then
    if ¬User.passwordValid u.password then
      throw (.domainValidationError
        "Password must be 8-128 characters and contain at least one uppercase letter, one lowercase letter, one digit, and one special character."
        "INVALID_PASSWORD")
  pure u

/-! ## Result enums (src/application/schemas/result_enums.py) -/

/-- Embeds `RegisterErrorCode` (result_enums.py lines 6-14). -/
inductive RegisterErrorCode where
  | PASSWORD_MISMATCH
  | INVALID_USERNAME
  | INVALID_PASSWORD
  | INVALID_INPUT
  | USERNAME_EXISTS
  | DATABASE_ERROR
  deriving DecidableEq, Repr

/-- Embeds `LoginErrorCode` (result_enums.py lines 17-21). -/
inductive LoginErrorCode where
  | INVALID_CREDENTIALS
  | INVALID_INPUT
  deriving DecidableEq, Repr

/-- Embeds `RegionalErrorCode` (result_enums.py lines 24-30). -/
inductive RegionalErrorCode where
  | INVALID_INPUT
  | NOT_FOUND
  | ALREADY_EXISTS
  | DATABASE_ERROR
  deriving DecidableEq, Repr

/-! ## Application DTOs (src/application/schemas/user_dto.py) -/

/-- Embeds `CreateUserDTO` (user_dto.py lines 4-14): the dataclass declares exactly
the fields `username` and `password`. -/
structure CreateUserDTO where
  username : String
  password : String
  deriving DecidableEq, Repr

/-- The attribute names declared by the `CreateUserDTO` dataclass. -/
def CreateUserDTO.fields : List String := ["username", "password"]

/-- Python attribute lookup on a `CreateUserDTO` instance: the declared
fields resolve to their values, any other attribute raises
`AttributeError`. -/
def CreateUserDTO.getattr (dto : CreateUserDTO) (attr : String) : Except PyExc String :=
  if attr = "username" then .ok dto.username
  else if attr = "password" then .ok dto.password
  else .error (.attributeError "CreateUserDTO" attr)

/-- Embeds `LoginUserDTO` (user_dto.py lines 17-22). -/
structure LoginUserDTO where
  username : String
  password : String
  deriving DecidableEq, Repr

/-! ## Repository ports (src/domain/repositories/) -/

/-- Embeds `CarRepository` (car_repository.py): reads return values, writes return
a `WriteOutcome`. -/
structure CarRepository where
  find_by_id : Int → Option Car
  find_all : List Car
  find_by_regional_id : Int → List Car
  find_by_plate_number : String → Option Car
  save : Car → WriteOutcome Car
  update : Car → WriteOutcome Car
  delete : Car → WriteOutcome Unit

/-- Embeds `RegionalRepository` (regional_repository.py). -/
structure RegionalRepository where
  find_by_id : Int → Option Regional
  find_all : List Regional
  save : Regional → WriteOutcome Regional
  update : Regional → WriteOutcome Regional
  delete : Regional → WriteOutcome Unit

/-- Embeds `UserRepository` (user_repository.py). -/
structure UserRepository where
  find_by_username : String → Option User
  save : User → WriteOutcome User

/-! ## Regional use cases (src/application/use_cases/regional/) -/

/-- Embeds `CreateRegionalResult` (create_regional.py lines 12-19). -/
structure CreateRegionalResult where
  success : Bool
  message : String
  regional : Option Regional := none
  error_code : Option RegionalErrorCode := none
  deriving DecidableEq, Repr

/-- Embeds `CreateRegionalUseCase.execute` (create_regional.py lines 26-70):
construct the entity catching `InvalidRegionalNameError`; save inside a
transaction, translating `IntegrityError` to ALREADY_EXISTS and
`DatabaseError` to DATABASE_ERROR.  Any other exception from construction
would propagate (no such exception exists here, but the catch is specific). -/
def CreateRegionalUseCase.execute (regionals : RegionalRepository) (name : String) :
    Except PyExc CreateRegionalResult :=
  match Regional.construct name with
  | .error (.invalidRegionalName m) =>
      .ok { success := false, message := m, error_code := some .INVALID_INPUT }
  | .error e => .error e
  | .ok regional =>
      match regionals.save regional with
      | .integrityError =>
          .ok { success := false, message := "Regional with this name already exists",
                error_code := some .ALREADY_EXISTS }
      | .databaseError =>
          .ok { success := false, message := "Failed to create regional",
                error_code := some .DATABASE_ERROR }
      | .ok saved_regional =>
          .ok { success := true, message := "Regional created successfully",
                regional := some saved_regional }

/-- Embeds `GetRegionalResult` (get_regional.py lines 9-16). -/
structure GetRegionalResult where
  success : Bool
  message : String
  regional : Option Regional := none
  error_code : Option RegionalErrorCode := none
  deriving DecidableEq, Repr

/-- The guard `not regional_id or regional_id < 1` shared by the regional
get/update/delete use cases; `none` models passing Python `None`. -/
def regionalIdMissingOrNonPositive : Option Int → Bool
  | none => true
  | some i => i < 1

/-- Embeds `GetRegionalUseCase.execute` (get_regional.py lines 23-55). -/
def GetRegionalUseCase.execute (regionals : RegionalRepository) (regional_id : Option Int) :
    Except PyExc GetRegionalResult :=
  if regionalIdMissingOrNonPositive regional_id then
    .ok { success := false, message := "Invalid regional ID", error_code := some .INVALID_INPUT }
  else
    match regionals.find_by_id (regional_id.getD 0) with
    | none =>
        .ok { success := false, message := "Regional not found", error_code := some .NOT_FOUND }
    | some regional =>
        .ok { success := true, message := "Regional retrieved successfully",
              regional := some regional }

/-- Embeds `GetRegionalsResult` (get_regionals.py lines 8-14). -/
structure GetRegionalsResult where
  success : Bool
  message : String
  regionals : List Regional
  deriving DecidableEq, Repr

/-- Embeds `GetRegionalsUseCase.execute` (get_regionals.py lines 21-34). -/
def GetRegionalsUseCase.execute (regionals : RegionalRepository) :
    Except PyExc GetRegionalsResult :=
  .ok { success := true, message := "Regionals retrieved successfully",
        regionals := regionals.find_all }

/-- Embeds `UpdateRegionalResult` (update_regional.py lines 12-19). -/
structure UpdateRegionalResult where
  success : Bool
  message : String
  regional : Option Regional := none
  error_code : Option RegionalErrorCode := none
  deriving DecidableEq, Repr

/-- Embeds `UpdateRegionalUseCase.execute` (update_regional.py lines 26-80):
validate the id, look up the regional, re-construct the entity with the new
name catching `InvalidRegionalNameError`, then persist in a transaction
catching `DatabaseError` (which also covers its subclass
`IntegrityError`). -/
def UpdateRegionalUseCase.execute (regionals : RegionalRepository)
    (regional_id : Option Int) (name : String) : Except PyExc UpdateRegionalResult :=
  if regionalIdMissingOrNonPositive regional_id then
    .ok { success := false, message := "Invalid regional ID", error_code := some .INVALID_INPUT }
  else
    match regionals.find_by_id (regional_id.getD 0) with
    | none =>
        .ok { success := false, message := "Regional not found", error_code := some .NOT_FOUND }
    | some existing_regional =>
        match Regional.construct name existing_regional.id with
        | .error (.invalidRegionalName m) =>
            .ok { success := false, message := m, error_code := some .INVALID_INPUT }
        | .error e => .error e
        | .ok validated_regional =>
            match regionals.update validated_regional with
            | .integrityError =>
                .ok { success := false, message := "Failed to update regional",
                      error_code := some .DATABASE_ERROR }
            | .databaseError =>
                .ok { success := false, message := "Failed to update regional",
                      error_code := some .DATABASE_ERROR }
            | .ok updated_regional =>
                .ok { success := true, message := "Regional updated successfully",
                      regional := some updated_regional }

/-- Embeds `DeleteRegionalResult` (delete_regional.py lines 10-16). -/
structure DeleteRegionalResult where
  success : Bool
  message : String
  error_code : Option RegionalErrorCode := none
  deriving DecidableEq, Repr

/-- Embeds `DeleteRegionalUseCase.execute` (delete_regional.py lines 23-64). -/
def DeleteRegionalUseCase.execute (regionals : RegionalRepository)
    (regional_id : Option Int) : Except PyExc DeleteRegionalResult :=
  if regionalIdMissingOrNonPositive regional_id then
    .ok { success := false, message := "Invalid regional ID", error_code := some .INVALID_INPUT }
  else
    match regionals.find_by_id (regional_id.getD 0) with
    | none =>
        .ok { success := false, message := "Regional not found", error_code := some .NOT_FOUND }
    | some existing_regional =>
        match regionals.delete existing_regional with
        | .integrityError =>
            .ok { success := false, message := "Failed to delete regional",
                  error_code := some .DATABASE_ERROR }
        | .databaseError =>
            .ok { success := false, message := "Failed to delete regional",
                  error_code := some .DATABASE_ERROR }
        | .ok _ =>
            .ok { success := true, message := "Regional deleted successfully" }

/-! ## User use cases (src/application/use_cases/user/) -/

/-- Embeds `RegisterUserResult` (register_user.py lines 18-25). -/
structure RegisterUserResult where
  success : Bool
  message : String
  user : Option User := none
  error_code : Option RegisterErrorCode := none
  deriving DecidableEq, Repr

/-- Embeds `RegisterUserUseCase._validate_input_types` (register_user.py lines
126-129): it reads `user_dto.username`, `user_dto.password` AND
`user_dto.confirm_password` through attribute lookup, and requires all to be
non-empty strings.  `CreateUserDTO` declares no `confirm_password`
attribute, so that lookup raises `AttributeError`. -/
def RegisterUserUseCase._validate_input_types (user_dto : CreateUserDTO) :
    Except PyExc Bool := do
  let username ← user_dto.getattr "username"
  let password ← user_dto.getattr "password"
  let confirm_password ← user_dto.getattr "confirm_password"
  pure (username ≠ "" ∧ password ≠ "" ∧ confirm_password ≠ "")

/-- Embeds `RegisterUserUseCase._is_valid_username` (register_user.py lines
131-135). -/
def RegisterUserUseCase._is_valid_username (username : String) : Bool :=
  User.usernameValid username

/-- Embeds `RegisterUserUseCase._is_valid_password` (register_user.py lines
137-146). -/
def RegisterUserUseCase._is_valid_password (password : String) : Bool :=
  User.passwordValid password

/-- The try/except block around `self.user_repository.save(user)`
(register_user.py lines 103-124): `IntegrityError` (the pre-check/save race)
is translated to the same USERNAME_EXISTS failure as the pre-check,
`DatabaseError` to DATABASE_ERROR, and a successful save to the success
result. -/
def RegisterUserUseCase.persistStep (save_result : WriteOutcome User) : RegisterUserResult :=
  match save_result with
  | .integrityError =>
      { success := false, message := "Username already exists",
        error_code := some .USERNAME_EXISTS }
  | .databaseError =>
      { success := false, message := "Failed to register user",
        error_code := some .DATABASE_ERROR }
  | .ok saved_user =>
      { success := true, message := "User registered successfully", user := some saved_user }

/-- Embeds `RegisterUserUseCase.execute` (register_user.py lines 32-124), with the
password-hashing function (src/application/utils/password_utils.py, not
under src/) abstracted as a parameter.  Every attribute access on the DTO
goes through `CreateUserDTO.getattr`; the very first step,
`_validate_input_types`, reads `confirm_password`. -/
def RegisterUserUseCase.execute (hash_password : String → String)
    (user_repository : UserRepository) (user_dto : CreateUserDTO) :
    Except PyExc RegisterUserResult := do
  let valid ← RegisterUserUseCase._validate_input_types user_dto
  if ¬valid then
    return { success := false, message := "Username and password are required",
             error_code := some .INVALID_INPUT }
  let username ← user_dto.getattr "username"
  let normalized_username := pyStripLower username
  let password ← user_dto.getattr "password"
  let confirm_password ← user_dto.getattr "confirm_password"
  if password ≠ confirm_password then
    return { success := false, message := "Passwords do not match",
             error_code := some .PASSWORD_MISMATCH }
  if ¬RegisterUserUseCase._is_valid_username normalized_username then
    return { success := false,
             message := "Username must be 3-32 characters and contain only letters, numbers, and underscores.",
             error_code := some .INVALID_USERNAME }
  if ¬RegisterUserUseCase._is_valid_password password then
    return { success := false,
             message := "Password must be 8-128 characters and contain at least one uppercase letter, one lowercase letter, one digit, and one special character.",
             error_code := some .INVALID_PASSWORD }
  match user_repository.find_by_username normalized_username with
  | some _ =>
      return { success := false, message := "Username already exists",
               error_code := some .USERNAME_EXISTS }
  | none =>
  let hashed_password := hash_password password
  match User.construct normalized_username hashed_password with
  | .error e => throw e
  | .ok user => return RegisterUserUseCase.persistStep (user_repository.save user)

/-- Embeds `LoginUserResult` (login_user.py lines 15-22). -/
structure LoginUserResult where
  success : Bool
  message : String
  token : Option String := none
  error_code : Option LoginErrorCode := none
  deriving DecidableEq, Repr

/-- Embeds `LoginUserUseCase.execute` (login_user.py lines 29-73), with the
password verifier (src/application/utils/password_utils.py, not under src/)
and the JWT `_generate_token` helper (external jwt/settings collaborators)
abstracted as parameters. -/
def LoginUserUseCase.execute (verify_password : String → String → Bool)
    (generate_token : User → String) (user_repository : UserRepository)
    (user_dto : LoginUserDTO) : Except PyExc LoginUserResult :=
  if user_dto.username = "" ∨ user_dto.password = "" then
    .ok { success := false, message := "Invalid credentials",
          error_code := some .INVALID_INPUT }
  else
    match user_repository.find_by_username (pyStripLower user_dto.username) with
    | none =>
        .ok { success := false, message := "Invalid credentials",
              error_code := some .INVALID_CREDENTIALS }
    | some existing_user =>
        if ¬verify_password user_dto.password existing_user.password then
          .ok { success := false, message := "Invalid credentials",
                error_code := some .INVALID_CREDENTIALS }
        else
          .ok { success := true, message := "User logged in successfully",
                token := some (generate_token existing_user) }

/-! ## Car use cases (src/application/use_cases/car/) -/

/-- Embeds `CreateCarUseCase.execute` (create_car.py lines 21-74): raises
`ValueError` when the regional is absent or the plate number is taken, lets
`DomainValidationError` from `Car(...)` propagate, and performs the save
with no exception handling, so a storage fault propagates as well. -/
def CreateCarUseCase.execute (cars : CarRepository) (regionals : RegionalRepository)
    (name brand model : String) (year : Int) (plate_number color : String)
    (price_per_day : Rat) (regional_id : Int) : Except PyExc Car :=
  match regionals.find_by_id regional_id with
  | none => .error (.valueError ("Regional with ID " ++ toString regional_id ++ " not found"))
  | some _ =>
    match cars.find_by_plate_number plate_number with
    | some _ =>
        .error (.valueError ("Car with plate number " ++ plate_number ++ " already exists"))
    | none =>
      match Car.construct name brand model year plate_number color price_per_day regional_id with
      | .error e => .error e
      | .ok car =>
        match cars.save car with
        | .ok saved => .ok saved
        | .integrityError => .error .integrityError
        | .databaseError => .error .databaseError

/-- Embeds `GetCarByIdUseCase.execute` (get_cars.py lines 13-28): raises
`ValueError` when the car is absent. -/
def GetCarByIdUseCase.execute (cars : CarRepository) (car_id : Int) : Except PyExc Car :=
  match cars.find_by_id car_id with
  | none => .error (.valueError ("Car with ID " ++ toString car_id ++ " not found"))
  | some car => .ok car

/-- Embeds `GetCarsUseCase.execute` (get_cars.py lines 37-76): the three filter
parameters must be supplied together or not at all; with all three present
the end date must not precede the start date; no filter returns `find_all`;
otherwise `find_by_regional_id` (the date range is accepted but unused). -/
def GetCarsUseCase.execute (cars : CarRepository)
    (regional_id start_date end_date : Option Int) : Except PyExc (List Car) :=
  let has_regional := regional_id.isSome
  let has_start := start_date.isSome
  let has_end := end_date.isSome
  if (has_regional ∨ has_start ∨ has_end) ∧ ¬(has_regional ∧ has_start ∧ has_end) then
    .error (.valueError "Filter parameters (r, s, e) must be provided together")
  else if has_start ∧ has_end ∧ end_date.getD 0 < start_date.getD 0 then
    .error (.valueError "End date must be greater than or equal to start date")
  else if ¬has_regional then
    .ok cars.find_all
  else
    .ok (cars.find_by_regional_id (regional_id.getD 0))

/-- Embeds `UpdateCarUseCase.execute` (update_car.py lines 18-59): raises
`ValueError` when the car is absent, when a provided `regional_id` does not
exist, or when a changed `plate_number` is taken; lets
`DomainValidationError` from `car.update(...)` propagate; performs the
repository update with no exception handling. -/
def UpdateCarUseCase.execute (cars : CarRepository) (regionals : RegionalRepository)
    (car_id : Int) (update_fields : List Kwarg) : Except PyExc Car :=
  match cars.find_by_id car_id with
  | none => .error (.valueError ("Car with ID " ++ toString car_id ++ " not found"))
  | some car =>
    let regional_check : Except PyExc Unit :=
      match update_fields.find? (fun a => match a with | .regional_id _ => true | _ => false) with
      | some (.regional_id rid) =>
          match regionals.find_by_id rid with
          | none => .error (.valueError ("Regional with ID " ++ toString rid ++ " not found"))
          | some _ => .ok ()
      | _ => .ok ()
    match regional_check with
    | .error e => .error e
    | .ok _ =>
      let plate_check : Except PyExc Unit :=
        match update_fields.find? (fun a => match a with | .plate_number _ => true | _ => false) with
        | some (.plate_number p) =>
            if p ≠ car.plate_number then
              match cars.find_by_plate_number p with
              | some _ =>
                  .error (.valueError ("Car with plate number " ++ p ++ " already exists"))
              | none => .ok ()
            else .ok ()
        | _ => .ok ()
      match plate_check with
      | .error e => .error e
      | .ok _ =>
        match car.update update_fields with
        | .error e => .error e
        | .ok updated =>
          match cars.update updated with
          | .ok saved => .ok saved
          | .integrityError => .error .integrityError
          | .databaseError => .error .databaseError

/-- Embeds `DeleteCarUseCase.execute` (delete_car.py lines 12-25): raises
`ValueError` when the car is absent; performs the delete with no exception
handling. -/
def DeleteCarUseCase.execute (cars : CarRepository) (car_id : Int) : Except PyExc Unit :=
  match cars.find_by_id car_id with
  | none => .error (.valueError ("Car with ID " ++ toString car_id ++ " not found"))
  | some car =>
    match cars.delete car with
    | .ok _ => .ok ()
    | .integrityError => .error .integrityError
    | .databaseError => .error .databaseError

/-! ## Module-level name resolution for src/domain/exceptions.py (claim C2) -/

/-- The exception classes defined by src/domain/exceptions.py (lines 4, 13
and 23): exactly these three names exist in the module. -/
def exceptionsModuleClasses : List String :=
  ["DomainValidationError", "InvalidUsernameError", "InvalidPasswordError"]

/-- The names imported from `src.domain.exceptions` by
src/domain/entities/regional.py line 6. -/
def regionalEntityExceptionImports : List String := ["InvalidRegionalNameError"]

/-- The names imported from `src.domain.exceptions` by
src/application/use_cases/regional/create_regional.py line 8. -/
def createRegionalExceptionImports : List String := ["InvalidRegionalNameError"]

/-- The names imported from `src.domain.exceptions` by
src/application/use_cases/regional/update_regional.py line 8. -/
def updateRegionalExceptionImports : List String := ["InvalidRegionalNameError"]

/-- A `from src.domain.exceptions import ...` statement resolves exactly
when every imported name is defined in the module; otherwise loading the
importing module raises ImportError. -/
def importsResolve (imports : List String) : Bool :=
  imports.all (fun n => exceptionsModuleClasses.contains n)

/-! ## Concrete fixtures used by witnesses and counterexamples -/

/-- A regional as stored by the repository. -/
def sampleRegional : Regional := { name := "Jakarta", id := some 1 }

/-- A valid car (all eight invariants hold). -/
def sampleCar : Car :=
  { name := "Toyota Camry", brand := "Toyota", model := "Camry", year := 2020,
    plate_number := "ABC-123", color := "Black", price_per_day := 500,
    regional_id := 1, id := some 1 }

/-- A stored user whose password field holds a hash. -/
def sampleUser : User :=
  { username := "alice", password := "stored-hash", id := some 1, is_hashed := true }

/-- A car repository holding nothing; all writes succeed. -/
def emptyCarRepository : CarRepository :=
  { find_by_id := fun _ => none, find_all := [], find_by_regional_id := fun _ => [],
    find_by_plate_number := fun _ => none, save := fun c => .ok c,
    update := fun c => .ok c, delete := fun _ => .ok () }

/-- A car repository that already holds `sampleCar` under plate ABC-123. -/
def carRepositoryDuplicatePlate : CarRepository :=
  { find_by_id := fun i => if i = 1 then some sampleCar else none,
    find_all := [sampleCar], find_by_regional_id := fun _ => [sampleCar],
    find_by_plate_number := fun p => if p = "ABC-123" then some sampleCar else none,
    save := fun c => .ok c, update := fun c => .ok c, delete := fun _ => .ok () }

/-- A car repository whose save raises a uniqueness/integrity violation
(the concurrent duplicate-creation race). -/
def carRepositorySaveIntegrity : CarRepository :=
  { find_by_id := fun _ => none, find_all := [], find_by_regional_id := fun _ => [],
    find_by_plate_number := fun _ => none, save := fun _ => .integrityError,
    update := fun c => .ok c, delete := fun _ => .ok () }

/-- A regional repository holding `sampleRegional` under id 1; all writes
succeed. -/
def regionalRepositoryWithOne : RegionalRepository :=
  { find_by_id := fun i => if i = 1 then some sampleRegional else none,
    find_all := [sampleRegional], save := fun r => .ok r,
    update := fun r => .ok r, delete := fun _ => .ok () }

/-- A regional repository holding nothing. -/
def emptyRegionalRepository : RegionalRepository :=
  { find_by_id := fun _ => none, find_all := [], save := fun r => .ok r,
    update := fun r => .ok r, delete := fun _ => .ok () }

/-- A regional repository whose update raises a storage fault. -/
def regionalRepositoryUpdateFault : RegionalRepository :=
  { find_by_id := fun i => if i = 1 then some sampleRegional else none,
    find_all := [sampleRegional], save := fun r => .ok r,
    update := fun _ => .databaseError, delete := fun _ => .ok () }

/-- A user repository holding nothing. -/
def emptyUserRepository : UserRepository :=
  { find_by_username := fun _ => none, save := fun u => .ok u }

/-- A user repository holding `sampleUser` under the username alice. -/
def userRepositoryWithAlice : UserRepository :=
  { find_by_username := fun n => if n = "alice" then some sampleUser else none,
    save := fun u => .ok u }

/-! ## Helper lemmas -/

/-- A string of positive length is not the empty string. -/
theorem ne_empty_of_one_le_length {s : String} (h : 1 ≤ s.length) : s ≠ "" := by
  intro e
  rw [e] at h
  simp at h

/-- Helper: `Regional.construct` either succeeds or raises `InvalidRegionalNameError`
(it raises nothing else). -/
theorem regional_construct_cases (name : String) (id : Option Int) :
    (∃ r, Regional.construct name id = .ok r) ∨
      (∃ m, Regional.construct name id = .error (.invalidRegionalName m)) := by
  unfold Regional.construct Regional._validate_name
  dsimp only
  split_ifs with h0 h1 h2 h3 h4 h5 h6
  · right; exact ⟨"Regional name is required.", rfl⟩
  · right; exact ⟨"Regional name must be at least 2 characters.", rfl⟩
  · right; exact ⟨"Regional name must not exceed 50 characters.", rfl⟩
  · left; exact ⟨_, rfl⟩
  · right; exact ⟨"Regional name is required.", rfl⟩
  · right; exact ⟨"Regional name must be at least 2 characters.", rfl⟩
  · right; exact ⟨"Regional name must not exceed 50 characters.", rfl⟩
  · left; exact ⟨_, rfl⟩

/-- Bounded, non-empty strings falsify the length-check condition of the
car validators. -/
theorem string_bounds_not_invalid {s : String} {lo hi : Nat}
    (h2 : lo ≤ s.length) (h3 : s.length ≤ hi) (h1 : 1 ≤ lo) :
    ¬(s = "" ∨ s.length < lo ∨ s.length > hi) := by
  push_neg
  exact ⟨ne_empty_of_one_le_length (h1.trans h2), h2, h3⟩

/-- Helper: `Car._validate_all` fails with INVALID_CAR_NAME whenever the name check
fails. -/
theorem car_validate_all_name_error (c : Car)
    (h : c.name = "" ∨ c.name.length < CAR_NAME_MIN ∨ c.name.length > CAR_NAME_MAX) :
    c._validate_all =
      .error (.domainValidationError "Name must be between 3 and 100 characters" "INVALID_CAR_NAME") := by
  unfold Car._validate_all Car._validate_name
  rw [if_pos h]
  rfl

/-- Helper: `Car._validate_all` fails with INVALID_YEAR when name, brand and model
pass and the year check fails. -/
theorem car_validate_all_year_error (c : Car)
    (h1 : ¬(c.name = "" ∨ c.name.length < CAR_NAME_MIN ∨ c.name.length > CAR_NAME_MAX))
    (h2 : ¬(c.brand = "" ∨ c.brand.length < BRAND_MIN ∨ c.brand.length > BRAND_MAX))
    (h3 : ¬(c.model = "" ∨ c.model.length < MODEL_MIN ∨ c.model.length > MODEL_MAX))
    (h4 : c.year < YEAR_MIN ∨ c.year > YEAR_MAX) :
    c._validate_all =
      .error (.domainValidationError "Year must be between 1900 and 2027" "INVALID_YEAR") := by
  unfold Car._validate_all Car._validate_name Car._validate_brand Car._validate_model
    Car._validate_year
  rw [if_neg h1, if_neg h2, if_neg h3, if_pos h4]
  rfl

/-- Helper: `Car._validate_all` fails with INVALID_PRICE when the first six checks
pass and the price is negative. -/
theorem car_validate_all_price_error (c : Car)
    (h1 : ¬(c.name = "" ∨ c.name.length < CAR_NAME_MIN ∨ c.name.length > CAR_NAME_MAX))
    (h2 : ¬(c.brand = "" ∨ c.brand.length < BRAND_MIN ∨ c.brand.length > BRAND_MAX))
    (h3 : ¬(c.model = "" ∨ c.model.length < MODEL_MIN ∨ c.model.length > MODEL_MAX))
    (h4 : ¬(c.year < YEAR_MIN ∨ c.year > YEAR_MAX))
    (h5 : ¬(c.plate_number = "" ∨ c.plate_number.length < PLATE_NUMBER_MIN ∨
        c.plate_number.length > PLATE_NUMBER_MAX))
    (h6 : ¬(c.color = "" ∨ c.color.length < COLOR_MIN ∨ c.color.length > COLOR_MAX))
    (h7 : c.price_per_day < 0) :
    c._validate_all =
      .error (.domainValidationError "Price per day must be a non-negative number" "INVALID_PRICE") := by
  unfold Car._validate_all Car._validate_name Car._validate_brand Car._validate_model
    Car._validate_year Car._validate_plate_number Car._validate_color Car._validate_price_per_day
  rw [if_neg h1, if_neg h2, if_neg h3, if_neg h4, if_neg h5, if_neg h6, if_pos h7]
  rfl

/-- Helper: `Car._validate_all` succeeds when all eight checks pass. -/
theorem car_validate_all_ok (c : Car)
    (h1 : ¬(c.name = "" ∨ c.name.length < CAR_NAME_MIN ∨ c.name.length > CAR_NAME_MAX))
    (h2 : ¬(c.brand = "" ∨ c.brand.length < BRAND_MIN ∨ c.brand.length > BRAND_MAX))
    (h3 : ¬(c.model = "" ∨ c.model.length < MODEL_MIN ∨ c.model.length > MODEL_MAX))
    (h4 : ¬(c.year < YEAR_MIN ∨ c.year > YEAR_MAX))
    (h5 : ¬(c.plate_number = "" ∨ c.plate_number.length < PLATE_NUMBER_MIN ∨
        c.plate_number.length > PLATE_NUMBER_MAX))
    (h6 : ¬(c.color = "" ∨ c.color.length < COLOR_MIN ∨ c.color.length > COLOR_MAX))
    (h7 : ¬(c.price_per_day < 0))
    (h8 : ¬(c.regional_id ≤ 0)) :
    c._validate_all = .ok () := by
  unfold Car._validate_all Car._validate_name Car._validate_brand Car._validate_model
    Car._validate_year Car._validate_plate_number Car._validate_color
    Car._validate_price_per_day Car._validate_regional_id
  rw [if_neg h1, if_neg h2, if_neg h3, if_neg h4, if_neg h5, if_neg h6, if_neg h7, if_neg h8]
  rfl

/-- Helper: `Car.construct` is the match on `Car._validate_all` of the assembled
record. -/
theorem car_construct_eq (n b m : String) (y : Int) (p col : String) (pr : Rat)
    (rid : Int) (oid : Option Int) :
    Car.construct n b m y p col pr rid oid =
      match Car._validate_all
          { name := n, brand := b, model := m, year := y, plate_number := p,
            color := col, price_per_day := pr, regional_id := rid, id := oid } with
      | .error e => .error e
      | .ok _ =>
          .ok { name := n, brand := b, model := m, year := y, plate_number := p,
                color := col, price_per_day := pr, regional_id := rid, id := oid } := rfl

/-! ## Claims -/

/-- Claim C6 (confirmed): every Car construction validates the eight
business fields fail-fast in the fixed order name, brand, model, year,
plate_number, color, price_per_day, regional_id, raising a
DomainValidationError with the matching machine code for the first failing
rule: a name of length outside [3,100] fails with INVALID_CAR_NAME; with
name, brand and model valid, a year outside [1900,2027] fails with
INVALID_YEAR; with the first six fields valid, a negative price_per_day
fails with INVALID_PRICE; and a car satisfying all eight constraints
constructs successfully. -/
theorem claim_C6_car_construction_validation :
    (∀ (n b m : String) (y : Int) (p col : String) (pr : Rat) (rid : Int) (oid : Option Int),
      n.length < CAR_NAME_MIN ∨ n.length > CAR_NAME_MAX →
      Car.construct n b m y p col pr rid oid =
        .error (.domainValidationError "Name must be between 3 and 100 characters" "INVALID_CAR_NAME")) ∧
    (∀ (n b m : String) (y : Int) (p col : String) (pr : Rat) (rid : Int) (oid : Option Int),
      CAR_NAME_MIN ≤ n.length ∧ n.length ≤ CAR_NAME_MAX →
      BRAND_MIN ≤ b.length ∧ b.length ≤ BRAND_MAX →
      MODEL_MIN ≤ m.length ∧ m.length ≤ MODEL_MAX →
      y < YEAR_MIN ∨ y > YEAR_MAX →
      Car.construct n b m y p col pr rid oid =
        .error (.domainValidationError "Year must be between 1900 and 2027" "INVALID_YEAR")) ∧
    (∀ (n b m : String) (y : Int) (p col : String) (pr : Rat) (rid : Int) (oid : Option Int),
      CAR_NAME_MIN ≤ n.length ∧ n.length ≤ CAR_NAME_MAX →
      BRAND_MIN ≤ b.length ∧ b.length ≤ BRAND_MAX →
      MODEL_MIN ≤ m.length ∧ m.length ≤ MODEL_MAX →
      YEAR_MIN ≤ y ∧ y ≤ YEAR_MAX →
      PLATE_NUMBER_MIN ≤ p.length ∧ p.length ≤ PLATE_NUMBER_MAX →
      COLOR_MIN ≤ col.length ∧ col.length ≤ COLOR_MAX →
      pr < 0 →
      Car.construct n b m y p col pr rid oid =
        .error (.domainValidationError "Price per day must be a non-negative number" "INVALID_PRICE")) ∧
    (∀ (n b m : String) (y : Int) (p col : String) (pr : Rat) (rid : Int) (oid : Option Int),
      CAR_NAME_MIN ≤ n.length ∧ n.length ≤ CAR_NAME_MAX →
      BRAND_MIN ≤ b.length ∧ b.length ≤ BRAND_MAX →
      MODEL_MIN ≤ m.length ∧ m.length ≤ MODEL_MAX →
      YEAR_MIN ≤ y ∧ y ≤ YEAR_MAX →
      PLATE_NUMBER_MIN ≤ p.length ∧ p.length ≤ PLATE_NUMBER_MAX →
      COLOR_MIN ≤ col.length ∧ col.length ≤ COLOR_MAX →
      0 ≤ pr →
      0 < rid →
      Car.construct n b m y p col pr rid oid =
        .ok { name := n, brand := b, model := m, year := y, plate_number := p,
              color := col, price_per_day := pr, regional_id := rid, id := oid }) := by
  refine ⟨?_, ?_, ?_, ?_⟩
  · intro n b m y p col pr rid oid h
    rw [car_construct_eq,
      car_validate_all_name_error _ (by rcases h with h | h; exacts [.inr (.inl h), .inr (.inr h)])]
  · intro n b m y p col pr rid oid hn hb hm hy
    rw [car_construct_eq,
      car_validate_all_year_error _
        (string_bounds_not_invalid hn.1 hn.2 (by decide))
        (string_bounds_not_invalid hb.1 hb.2 (by decide))
        (string_bounds_not_invalid hm.1 hm.2 (by decide))
        hy]
  · intro n b m y p col pr rid oid hn hb hm hy hp hcol hpr
    rw [car_construct_eq,
      car_validate_all_price_error _
        (string_bounds_not_invalid hn.1 hn.2 (by decide))
        (string_bounds_not_invalid hb.1 hb.2 (by decide))
        (string_bounds_not_invalid hm.1 hm.2 (by decide))
        (by push_neg; exact ⟨hy.1, hy.2⟩)
        (string_bounds_not_invalid hp.1 hp.2 (by decide))
        (string_bounds_not_invalid hcol.1 hcol.2 (by decide))
        hpr]
  · intro n b m y p col pr rid oid hn hb hm hy hp hcol hpr hrid
    rw [car_construct_eq,
      car_validate_all_ok _
        (string_bounds_not_invalid hn.1 hn.2 (by decide))
        (string_bounds_not_invalid hb.1 hb.2 (by decide))
        (string_bounds_not_invalid hm.1 hm.2 (by decide))
        (by push_neg; exact ⟨hy.1, hy.2⟩)
        (string_bounds_not_invalid hp.1 hp.2 (by decide))
        (string_bounds_not_invalid hcol.1 hcol.2 (by decide))
        (not_lt.mpr hpr)
        (not_le.mpr hrid)]

/-- Witness for C6: the theorem applied at concrete inputs — a too-short
name, an out-of-range year, a negative price, and a fully valid car. -/
theorem claim_C6_witness :
    Car.construct "AB" "Toyota" "Camry" 2020 "ABC-123" "Black" 500 1 none =
      .error (.domainValidationError "Name must be between 3 and 100 characters" "INVALID_CAR_NAME") ∧
    Car.construct "Toyota Camry" "Toyota" "Camry" 1800 "ABC-123" "Black" 500 1 none =
      .error (.domainValidationError "Year must be between 1900 and 2027" "INVALID_YEAR") ∧
    Car.construct "Toyota Camry" "Toyota" "Camry" 2020 "ABC-123" "Black" (-1) 1 none =
      .error (.domainValidationError "Price per day must be a non-negative number" "INVALID_PRICE") ∧
    Car.construct "Toyota Camry" "Toyota" "Camry" 2020 "ABC-123" "Black" 500 1 none =
      .ok { name := "Toyota Camry", brand := "Toyota", model := "Camry", year := 2020,
            plate_number := "ABC-123", color := "Black", price_per_day := 500,
            regional_id := 1, id := none } :=
  ⟨claim_C6_car_construction_validation.1 "AB" "Toyota" "Camry" 2020 "ABC-123" "Black" 500 1 none
      (by decide),
   claim_C6_car_construction_validation.2.1 "Toyota Camry" "Toyota" "Camry" 1800 "ABC-123" "Black"
      500 1 none (by decide) (by decide) (by decide) (by decide),
   claim_C6_car_construction_validation.2.2.1 "Toyota Camry" "Toyota" "Camry" 2020 "ABC-123"
      "Black" (-1) 1 none (by decide) (by decide) (by decide) (by decide) (by decide) (by decide)
      (by decide),
   claim_C6_car_construction_validation.2.2.2 "Toyota Camry" "Toyota" "Camry" 2020 "ABC-123"
      "Black" 500 1 none (by decide) (by decide) (by decide) (by decide) (by decide) (by decide)
      (by decide) (by decide)⟩

/-- The kwargs loop raises INVALID_FIELD whenever some keyword is not an
updatable field. -/
theorem car_applyKwargs_other (c : Car) (kwargs : List Kwarg) (k : String)
    (h : Kwarg.other k ∈ kwargs) :
    ∃ m, c.applyKwargs kwargs = .error (.domainValidationError m "INVALID_FIELD") := by
  induction kwargs generalizing c with
  | nil => cases h
  | cons a rest ih =>
    rcases List.mem_cons.mp h with ha | hmem
    · subst ha
      exact ⟨_, rfl⟩
    · cases a <;> first
        | exact ⟨_, rfl⟩
        | exact ih _ hmem

/-- A successful `Car.update` returns an entity on which the full
re-validation succeeds. -/
theorem car_update_ok_valid (c : Car) (kwargs : List Kwarg) (c2 : Car)
    (h : c.update kwargs = .ok c2) : c2._validate_all = .ok () := by
  unfold Car.update at h
  split at h
  · exact absurd h (by simp)
  · split at h
    · exact absurd h (by simp)
    · rename_i c3 ha u hv
      cases u
      simp only [Except.ok.injEq] at h
      subst h
      exact hv

/-- Claim C7 (confirmed): `Car.update` applies only the eight updatable
fields and fails with INVALID_FIELD for any other field name; after
applying all provided fields it re-validates the whole entity, so a
successful update always returns a fully valid entity, and
`update(color="X", name="AB")` on a valid car fails overall with
INVALID_CAR_NAME. -/
theorem claim_C7_car_update_contract :
    (∀ (c : Car) (kwargs : List Kwarg) (k : String), Kwarg.other k ∈ kwargs →
      ∃ m, c.update kwargs = .error (.domainValidationError m "INVALID_FIELD")) ∧
    (∀ (c : Car) (kwargs : List Kwarg) (c2 : Car), c.update kwargs = .ok c2 →
      c2._validate_all = .ok ()) ∧
    Car.update sampleCar [Kwarg.color "X", Kwarg.name "AB"] =
      .error (.domainValidationError "Name must be between 3 and 100 characters" "INVALID_CAR_NAME") := by
  refine ⟨?_, car_update_ok_valid, by rfl⟩
  intro c kwargs k h
  obtain ⟨m, hm⟩ := car_applyKwargs_other c kwargs k h
  refine ⟨m, ?_⟩
  unfold Car.update
  rw [hm]

/-- Witness for C7: the theorem applied at concrete inputs — an update with
the unknown keyword owner, a successful color-only update whose result
re-validates, and the concrete mixed update of the claim. -/
theorem claim_C7_witness :
    (∃ m, Car.update sampleCar [Kwarg.other "owner"] =
      .error (.domainValidationError m "INVALID_FIELD")) ∧
    Car._validate_all
      { name := "Toyota Camry", brand := "Toyota", model := "Camry", year := 2020,
        plate_number := "ABC-123", color := "Blue", price_per_day := 500,
        regional_id := 1, id := some 1 } = .ok () :=
  ⟨claim_C7_car_update_contract.1 sampleCar [Kwarg.other "owner"] "owner" (by decide),
   claim_C7_car_update_contract.2.1 sampleCar [Kwarg.color "Blue"] _ (by rfl)⟩

/-- Claim C2 (confirmed): `InvalidRegionalNameError` is not among the
exception classes defined by src/domain/exceptions.py (which defines only
DomainValidationError, InvalidUsernameError and InvalidPasswordError), yet
regional.py, create_regional.py and update_regional.py all import that name
from the module, so none of those three import statements resolves and no
Regional validation-failure branch can execute as written. -/
theorem claim_C2_missing_exception_class :
    "InvalidRegionalNameError" ∉ exceptionsModuleClasses ∧
    "InvalidRegionalNameError" ∈ regionalEntityExceptionImports ∧
    "InvalidRegionalNameError" ∈ createRegionalExceptionImports ∧
    "InvalidRegionalNameError" ∈ updateRegionalExceptionImports ∧
    importsResolve regionalEntityExceptionImports = false ∧
    importsResolve createRegionalExceptionImports = false ∧
    importsResolve updateRegionalExceptionImports = false := by
  refine ⟨?_, ?_, ?_, ?_, ?_, ?_, ?_⟩ <;> decide

/-- Claim C3 (confirmed): `CreateUserDTO` declares no `confirm_password`
field, and `RegisterUserUseCase.execute` reads it (first inside
`_validate_input_types`), so for every `CreateUserDTO` value, every hash
function and every repository state, `execute` raises `AttributeError` for
`confirm_password` and never returns a `RegisterUserResult`. -/
theorem claim_C3_register_attribute_error :
    "confirm_password" ∉ CreateUserDTO.fields ∧
    ∀ (hash_password : String → String) (user_repository : UserRepository)
      (user_dto : CreateUserDTO),
      RegisterUserUseCase.execute hash_password user_repository user_dto =
        .error (.attributeError "CreateUserDTO" "confirm_password") := by
  exact ⟨by decide, fun _ _ _ => rfl⟩

/-- Claim C5 (confirmed): for every login attempt with non-empty username
and password, the unknown-username outcome and the wrong-password outcome of
`LoginUserUseCase.execute` are the very same failed Result — message
"Invalid credentials" and code INVALID_CREDENTIALS — so the outcome does not
reveal whether the username exists. -/
theorem claim_C5_login_no_enumeration_leak :
    ∀ (verify_password : String → String → Bool) (generate_token : User → String)
      (repo_absent repo_present : UserRepository) (user_dto : LoginUserDTO) (u : User),
      user_dto.username ≠ "" → user_dto.password ≠ "" →
      repo_absent.find_by_username (pyStripLower user_dto.username) = none →
      repo_present.find_by_username (pyStripLower user_dto.username) = some u →
      verify_password user_dto.password u.password = false →
      LoginUserUseCase.execute verify_password generate_token repo_absent user_dto =
          LoginUserUseCase.execute verify_password generate_token repo_present user_dto ∧
      LoginUserUseCase.execute verify_password generate_token repo_absent user_dto =
          .ok { success := false, message := "Invalid credentials", token := none,
                error_code := some .INVALID_CREDENTIALS } := by
  intro verify_password generate_token repo_absent repo_present user_dto u hu hp habs hpres hver
  have habsent :
      LoginUserUseCase.execute verify_password generate_token repo_absent user_dto =
        .ok { success := false, message := "Invalid credentials", token := none,
              error_code := some .INVALID_CREDENTIALS } := by
    unfold LoginUserUseCase.execute
    rw [if_neg (by push_neg; exact ⟨hu, hp⟩), habs]
  have hpresent :
      LoginUserUseCase.execute verify_password generate_token repo_present user_dto =
        .ok { success := false, message := "Invalid credentials", token := none,
              error_code := some .INVALID_CREDENTIALS } := by
    unfold LoginUserUseCase.execute
    rw [if_neg (by push_neg; exact ⟨hu, hp⟩), hpres]
    simp [hver]
  exact ⟨habsent.trans hpresent.symm, habsent⟩

/-- Witness for C5: the theorem applied to the concrete login attempt
(alice, wrong-password) against an empty repository and against a
repository holding alice, with a verifier that rejects the password. -/
theorem claim_C5_witness :
    LoginUserUseCase.execute (fun _ _ => false) (fun _ => "token") emptyUserRepository
        { username := "alice", password := "wrong-password" } =
      LoginUserUseCase.execute (fun _ _ => false) (fun _ => "token") userRepositoryWithAlice
        { username := "alice", password := "wrong-password" } ∧
    LoginUserUseCase.execute (fun _ _ => false) (fun _ => "token") emptyUserRepository
        { username := "alice", password := "wrong-password" } =
      .ok { success := false, message := "Invalid credentials", token := none,
            error_code := some .INVALID_CREDENTIALS } :=
  claim_C5_login_no_enumeration_leak (fun _ _ => false) (fun _ => "token")
    emptyUserRepository userRepositoryWithAlice
    { username := "alice", password := "wrong-password" } sampleUser
    (by decide) (by decide) (by decide) (by decide) (by decide)

/-- Claim C8 (confirmed): `GetCarsUseCase.execute` fails with a validation
error when only some of the three filter parameters are provided, fails when
all three are provided with end_date < start_date, returns the repository's
full `find_all` list when none are provided, and returns exactly
`find_by_regional_id` when all three are provided with
end_date ≥ start_date (the date range is accepted but unused). -/
theorem claim_C8_get_cars_filters :
    (∀ (cars : CarRepository) (regional_id start_date end_date : Option Int),
      (regional_id.isSome ∨ start_date.isSome ∨ end_date.isSome) →
      ¬(regional_id.isSome ∧ start_date.isSome ∧ end_date.isSome) →
      GetCarsUseCase.execute cars regional_id start_date end_date =
        .error (.valueError "Filter parameters (r, s, e) must be provided together")) ∧
    (∀ (cars : CarRepository) (r s e : Int), e < s →
      GetCarsUseCase.execute cars (some r) (some s) (some e) =
        .error (.valueError "End date must be greater than or equal to start date")) ∧
    (∀ cars : CarRepository,
      GetCarsUseCase.execute cars none none none = .ok cars.find_all) ∧
    (∀ (cars : CarRepository) (r s e : Int), s ≤ e →
      GetCarsUseCase.execute cars (some r) (some s) (some e) =
        .ok (cars.find_by_regional_id r)) := by
  refine ⟨?_, ?_, ?_, ?_⟩
  · intro cars regional_id start_date end_date hsome hnall
    unfold GetCarsUseCase.execute
    rw [if_pos ⟨by simpa using hsome, by simpa using hnall⟩]
  · intro cars r s e hlt
    unfold GetCarsUseCase.execute
    rw [if_neg (by simp), if_pos (by simpa using hlt)]
  · intro cars
    unfold GetCarsUseCase.execute
    rw [if_neg (by simp), if_neg (by simp), if_pos (by simp)]
  · intro cars r s e hle
    unfold GetCarsUseCase.execute
    rw [if_neg (by simp), if_neg (by simp; exact hle), if_neg (by simp)]
    rfl

/-- Witness for C8: the theorem applied to the spec's concrete examples —
`GetCars(regional_id=5)` alone, `GetCars(regional_id=5, start=100, end=50)`,
no filters, and `GetCars(regional_id=1, start=50, end=100)` — against the
repository holding `sampleCar`. -/
theorem claim_C8_witness :
    GetCarsUseCase.execute carRepositoryDuplicatePlate (some 5) none none =
      .error (.valueError "Filter parameters (r, s, e) must be provided together") ∧
    GetCarsUseCase.execute carRepositoryDuplicatePlate (some 5) (some 100) (some 50) =
      .error (.valueError "End date must be greater than or equal to start date") ∧
    GetCarsUseCase.execute carRepositoryDuplicatePlate none none none =
      .ok carRepositoryDuplicatePlate.find_all ∧
    GetCarsUseCase.execute carRepositoryDuplicatePlate (some 1) (some 50) (some 100) =
      .ok (carRepositoryDuplicatePlate.find_by_regional_id 1) :=
  ⟨claim_C8_get_cars_filters.1 carRepositoryDuplicatePlate (some 5) none none
      (by decide) (by decide),
   claim_C8_get_cars_filters.2.1 carRepositoryDuplicatePlate 5 100 50 (by decide),
   claim_C8_get_cars_filters.2.2.1 carRepositoryDuplicatePlate,
   claim_C8_get_cars_filters.2.2.2 carRepositoryDuplicatePlate 1 50 100 (by decide)⟩

/-- Claim C10 (confirmed): `UpdateRegionalUseCase.execute` fails with
INVALID_INPUT on a missing or non-positive id; fails with NOT_FOUND when the
id is absent from the repository; fails with INVALID_INPUT (carrying the
validation message) when reconstructing the Regional with the new name
raises the name-validation error; and otherwise persists the reconstructed
regional, turning a storage fault during persistence into DATABASE_ERROR. -/
theorem claim_C10_update_regional_contract :
    (∀ (regionals : RegionalRepository) (regional_id : Option Int) (name : String),
      regionalIdMissingOrNonPositive regional_id = true →
      UpdateRegionalUseCase.execute regionals regional_id name =
        .ok { success := false, message := "Invalid regional ID", regional := none,
              error_code := some .INVALID_INPUT }) ∧
    (∀ (regionals : RegionalRepository) (i : Int) (name : String),
      ¬(i < 1) → regionals.find_by_id i = none →
      UpdateRegionalUseCase.execute regionals (some i) name =
        .ok { success := false, message := "Regional not found", regional := none,
              error_code := some .NOT_FOUND }) ∧
    (∀ (regionals : RegionalRepository) (i : Int) (name : String) (ex : Regional) (m : String),
      ¬(i < 1) → regionals.find_by_id i = some ex →
      Regional.construct name ex.id = .error (.invalidRegionalName m) →
      UpdateRegionalUseCase.execute regionals (some i) name =
        .ok { success := false, message := m, regional := none,
              error_code := some .INVALID_INPUT }) ∧
    (∀ (regionals : RegionalRepository) (i : Int) (name : String) (ex vr : Regional),
      ¬(i < 1) → regionals.find_by_id i = some ex →
      Regional.construct name ex.id = .ok vr →
      (regionals.update vr = .databaseError ∨ regionals.update vr = .integrityError) →
      UpdateRegionalUseCase.execute regionals (some i) name =
        .ok { success := false, message := "Failed to update regional", regional := none,
              error_code := some .DATABASE_ERROR }) ∧
    (∀ (regionals : RegionalRepository) (i : Int) (name : String) (ex vr ur : Regional),
      ¬(i < 1) → regionals.find_by_id i = some ex →
      Regional.construct name ex.id = .ok vr →
      regionals.update vr = .ok ur →
      UpdateRegionalUseCase.execute regionals (some i) name =
        .ok { success := true, message := "Regional updated successfully",
              regional := some ur, error_code := none }) := by
  refine ⟨?_, ?_, ?_, ?_, ?_⟩
  · intro regionals regional_id name h
    unfold UpdateRegionalUseCase.execute
    rw [if_pos h]
  · intro regionals i name hi hfind
    unfold UpdateRegionalUseCase.execute
    rw [if_neg (by simp [regionalIdMissingOrNonPositive]; exact not_lt.mp hi), Option.getD_some, hfind]
  · intro regionals i name ex m hi hfind hcons
    unfold UpdateRegionalUseCase.execute
    rw [if_neg (by simp [regionalIdMissingOrNonPositive]; exact not_lt.mp hi), Option.getD_some, hfind]
    dsimp only
    rw [hcons]
  · intro regionals i name ex vr hi hfind hcons hupd
    unfold UpdateRegionalUseCase.execute
    rw [if_neg (by simp [regionalIdMissingOrNonPositive]; exact not_lt.mp hi), Option.getD_some, hfind]
    dsimp only
    rw [hcons]
    dsimp only
    rcases hupd with hupd | hupd <;> rw [hupd]
  · intro regionals i name ex vr ur hi hfind hcons hupd
    unfold UpdateRegionalUseCase.execute
    rw [if_neg (by simp [regionalIdMissingOrNonPositive]; exact not_lt.mp hi), Option.getD_some, hfind]
    dsimp only
    rw [hcons]
    dsimp only
    rw [hupd]

/-- Witness for C10: the theorem applied at the spec's concrete inputs —
id 0, the nonexistent id 9999, the empty new name on the stored regional
id 1, a storage fault during persistence, and a successful rename to
Bandung. -/
theorem claim_C10_witness :
    UpdateRegionalUseCase.execute regionalRepositoryWithOne (some 0) "Bandung" =
      .ok { success := false, message := "Invalid regional ID", regional := none,
            error_code := some .INVALID_INPUT } ∧
    UpdateRegionalUseCase.execute regionalRepositoryWithOne (some 9999) "Bandung" =
      .ok { success := false, message := "Regional not found", regional := none,
            error_code := some .NOT_FOUND } ∧
    UpdateRegionalUseCase.execute regionalRepositoryWithOne (some 1) "" =
      .ok { success := false, message := "Regional name is required.", regional := none,
            error_code := some .INVALID_INPUT } ∧
    UpdateRegionalUseCase.execute regionalRepositoryUpdateFault (some 1) "Bandung" =
      .ok { success := false, message := "Failed to update regional", regional := none,
            error_code := some .DATABASE_ERROR } ∧
    UpdateRegionalUseCase.execute regionalRepositoryWithOne (some 1) "Bandung" =
      .ok { success := true, message := "Regional updated successfully",
            regional := some { name := "Bandung", id := some 1 }, error_code := none } :=
  ⟨claim_C10_update_regional_contract.1 regionalRepositoryWithOne (some 0) "Bandung" (by decide),
   claim_C10_update_regional_contract.2.1 regionalRepositoryWithOne 9999 "Bandung"
     (by decide) (by decide),
   claim_C10_update_regional_contract.2.2.1 regionalRepositoryWithOne 1 "" sampleRegional
     "Regional name is required." (by decide) (by decide) (by rfl),
   claim_C10_update_regional_contract.2.2.2.1 regionalRepositoryUpdateFault 1 "Bandung"
     sampleRegional { name := "Bandung", id := some 1 } (by decide) (by decide) (by rfl)
     (Or.inl (by rfl)),
   claim_C10_update_regional_contract.2.2.2.2 regionalRepositoryWithOne 1 "Bandung"
     sampleRegional { name := "Bandung", id := some 1 } { name := "Bandung", id := some 1 }
     (by decide) (by decide) (by rfl) (by rfl)⟩

/-- Claim C9 (code_bug): evaluating the embedded
`RegisterUserUseCase.execute` at a concrete registration input shows that it
raises `AttributeError` for `confirm_password` and returns no
`RegisterUserResult` at all — in particular the PASSWORD_MISMATCH branch
demanded by the spec is unreachable, because `CreateUserDTO` carries no
confirmation field for the use case to compare. -/
theorem claim_C9_register_mismatch_unreachable :
    RegisterUserUseCase.execute (fun p => p) emptyUserRepository
        { username := "bob", password := "Str0ngP@ss1" } =
      .error (.attributeError "CreateUserDTO" "confirm_password") ∧
    ∀ result : RegisterUserResult,
      RegisterUserUseCase.execute (fun p => p) emptyUserRepository
          { username := "bob", password := "Str0ngP@ss1" } ≠ .ok result := by
  refine ⟨rfl, fun result h => ?_⟩
  rw [show RegisterUserUseCase.execute (fun p => p) emptyUserRepository
        { username := "bob", password := "Str0ngP@ss1" } =
      Except.error (PyExc.attributeError "CreateUserDTO" "confirm_password") from rfl] at h
  simp at h

/-- Counterexample for C4: at a concrete car-creation input, the claim is
false — the pre-check duplicate raises `ValueError(already exists)`, but
when the duplicate arrives as an `IntegrityError` from the repository save,
`CreateCarUseCase.execute` propagates the raw `IntegrityError` instead of
converging to the same outcome (there is no storage-fault handling at
all). -/
theorem claim_C4_counterexample :
    CreateCarUseCase.execute carRepositoryDuplicatePlate regionalRepositoryWithOne
        "Toyota Camry" "Toyota" "Camry" 2020 "ABC-123" "Black" 500 1 =
      .error (.valueError "Car with plate number ABC-123 already exists") ∧
    CreateCarUseCase.execute carRepositorySaveIntegrity regionalRepositoryWithOne
        "Toyota Camry" "Toyota" "Camry" 2020 "ABC-123" "Black" 500 1 =
      .error .integrityError ∧
    (PyExc.integrityError ≠
      PyExc.valueError "Car with plate number ABC-123 already exists") :=
  ⟨rfl, rfl, by decide⟩

/-- Claim C4 as amended (proved): user registration translates a
uniqueness/integrity violation raised by the repository save into the same
USERNAME_EXISTS failure (identical message and code) that the
pre-existing-duplicate pre-check produces, and any other storage fault into
the generic DATABASE_ERROR result (this handler sits behind the
confirm_password attribute error, so the full execute cannot reach it);
`CreateCarUseCase.execute` has no storage-fault handling: with the
pre-checks passing and a valid entity, an IntegrityError or DatabaseError
raised by save propagates out of the use case untranslated. -/
theorem claim_C4_amended_race_convergence :
    RegisterUserUseCase.persistStep .integrityError =
      { success := false, message := "Username already exists", user := none,
        error_code := some .USERNAME_EXISTS } ∧
    RegisterUserUseCase.persistStep .databaseError =
      { success := false, message := "Failed to register user", user := none,
        error_code := some .DATABASE_ERROR } ∧
    (∀ (cars : CarRepository) (regionals : RegionalRepository) (n b m : String) (y : Int)
      (p col : String) (pr : Rat) (rid : Int) (reg : Regional) (car : Car),
      regionals.find_by_id rid = some reg →
      cars.find_by_plate_number p = none →
      Car.construct n b m y p col pr rid = .ok car →
      cars.save car = .integrityError →
      CreateCarUseCase.execute cars regionals n b m y p col pr rid = .error .integrityError) ∧
    (∀ (cars : CarRepository) (regionals : RegionalRepository) (n b m : String) (y : Int)
      (p col : String) (pr : Rat) (rid : Int) (reg : Regional) (car : Car),
      regionals.find_by_id rid = some reg →
      cars.find_by_plate_number p = none →
      Car.construct n b m y p col pr rid = .ok car →
      cars.save car = .databaseError →
      CreateCarUseCase.execute cars regionals n b m y p col pr rid = .error .databaseError) := by
  refine ⟨rfl, rfl, ?_, ?_⟩ <;>
  · intro cars regionals n b m y p col pr rid reg car hreg hplate hcons hsave
    unfold CreateCarUseCase.execute
    rw [hreg]
    dsimp only
    rw [hplate]
    dsimp only
    rw [hcons]
    dsimp only
    rw [hsave]

/-- Witness for C4 (amended): the theorem applied at the concrete race
input — a valid car whose save raises IntegrityError. -/
theorem claim_C4_witness :
    CreateCarUseCase.execute carRepositorySaveIntegrity regionalRepositoryWithOne
        "Honda Civic" "Honda" "Civic" 2021 "XYZ-789" "White" 400 1 =
      .error .integrityError :=
  claim_C4_amended_race_convergence.2.2.1 carRepositorySaveIntegrity regionalRepositoryWithOne
    "Honda Civic" "Honda" "Civic" 2021 "XYZ-789" "White" 400 1 sampleRegional
    { name := "Honda Civic", brand := "Honda", model := "Civic", year := 2021,
      plate_number := "XYZ-789", color := "White", price_per_day := 400,
      regional_id := 1, id := none }
    (by rfl) (by rfl) (by rfl) (by rfl)

/-- Counterexample for C1: the claim is false at a concrete input —
fetching car id 1 from an empty repository makes `GetCarByIdUseCase.execute`
raise `ValueError` across the use-case boundary instead of returning any
Result value. -/
theorem claim_C1_counterexample :
    GetCarByIdUseCase.execute emptyCarRepository 1 =
      .error (.valueError "Car with ID 1 not found") := rfl

/-- Claim C1 as amended (proved): the five Regional use cases and the Login
use case return a Result for every input and repository outcome, catching
the Regional name-validation error and the anticipated storage faults; the
Car use cases instead propagate exceptions across the use-case boundary —
get-by-id and delete raise ValueError when the car is absent, and create
lets the DomainValidationError from entity construction escape; and user
registration raises an AttributeError for every input. -/
theorem claim_C1_amended_result_boundary :
    (∀ (regionals : RegionalRepository) (name : String),
      ∃ res, CreateRegionalUseCase.execute regionals name = .ok res) ∧
    (∀ (regionals : RegionalRepository) (regional_id : Option Int),
      ∃ res, GetRegionalUseCase.execute regionals regional_id = .ok res) ∧
    (∀ regionals : RegionalRepository,
      ∃ res, GetRegionalsUseCase.execute regionals = .ok res) ∧
    (∀ (regionals : RegionalRepository) (regional_id : Option Int) (name : String),
      ∃ res, UpdateRegionalUseCase.execute regionals regional_id name = .ok res) ∧
    (∀ (regionals : RegionalRepository) (regional_id : Option Int),
      ∃ res, DeleteRegionalUseCase.execute regionals regional_id = .ok res) ∧
    (∀ (verify_password : String → String → Bool) (generate_token : User → String)
      (user_repository : UserRepository) (user_dto : LoginUserDTO),
      ∃ res, LoginUserUseCase.execute verify_password generate_token user_repository user_dto =
        .ok res) ∧
    (∀ (cars : CarRepository) (car_id : Int), cars.find_by_id car_id = none →
      GetCarByIdUseCase.execute cars car_id =
        .error (.valueError ("Car with ID " ++ toString car_id ++ " not found"))) ∧
    (∀ (cars : CarRepository) (car_id : Int), cars.find_by_id car_id = none →
      DeleteCarUseCase.execute cars car_id =
        .error (.valueError ("Car with ID " ++ toString car_id ++ " not found"))) ∧
    (∀ (cars : CarRepository) (regionals : RegionalRepository) (n b m : String) (y : Int)
      (p col : String) (pr : Rat) (rid : Int) (reg : Regional) (msg code : String),
      regionals.find_by_id rid = some reg →
      cars.find_by_plate_number p = none →
      Car.construct n b m y p col pr rid = .error (.domainValidationError msg code) →
      CreateCarUseCase.execute cars regionals n b m y p col pr rid =
        .error (.domainValidationError msg code)) ∧
    (∀ (hash_password : String → String) (user_repository : UserRepository)
      (user_dto : CreateUserDTO),
      RegisterUserUseCase.execute hash_password user_repository user_dto =
        .error (.attributeError "CreateUserDTO" "confirm_password")) := by
  refine ⟨?_, ?_, ?_, ?_, ?_, ?_, ?_, ?_, ?_, fun _ _ _ => rfl⟩
  · intro regionals name
    rcases regional_construct_cases name none with ⟨r, hr⟩ | ⟨m, hm⟩
    · rcases hs : regionals.save r with r2 | _ | _ <;>
        exact ⟨_, by unfold CreateRegionalUseCase.execute; rw [hr]; dsimp only; rw [hs]⟩
    · exact ⟨_, by unfold CreateRegionalUseCase.execute; rw [hm]⟩
  · intro regionals regional_id
    by_cases h : regionalIdMissingOrNonPositive regional_id = true
    · exact ⟨_, by unfold GetRegionalUseCase.execute; rw [if_pos h]⟩
    · rcases hf : regionals.find_by_id (regional_id.getD 0) with _ | r <;>
        exact ⟨_, by unfold GetRegionalUseCase.execute; rw [if_neg h, hf]⟩
  · intro regionals
    exact ⟨_, rfl⟩
  · intro regionals regional_id name
    by_cases h : regionalIdMissingOrNonPositive regional_id = true
    · exact ⟨_, by unfold UpdateRegionalUseCase.execute; rw [if_pos h]⟩
    · rcases hf : regionals.find_by_id (regional_id.getD 0) with _ | ex
      · exact ⟨_, by unfold UpdateRegionalUseCase.execute; rw [if_neg h, hf]⟩
      · rcases regional_construct_cases name ex.id with ⟨vr, hvr⟩ | ⟨m, hm⟩
        · rcases hu : regionals.update vr with ur | _ | _ <;>
            exact ⟨_, by
              unfold UpdateRegionalUseCase.execute
              rw [if_neg h, hf]
              dsimp only
              rw [hvr]
              dsimp only
              rw [hu]⟩
        · exact ⟨_, by
            unfold UpdateRegionalUseCase.execute
            rw [if_neg h, hf]
            dsimp only
            rw [hm]⟩
  · intro regionals regional_id
    by_cases h : regionalIdMissingOrNonPositive regional_id = true
    · exact ⟨_, by unfold DeleteRegionalUseCase.execute; rw [if_pos h]⟩
    · rcases hf : regionals.find_by_id (regional_id.getD 0) with _ | ex
      · exact ⟨_, by unfold DeleteRegionalUseCase.execute; rw [if_neg h, hf]⟩
      · rcases hd : regionals.delete ex with _ | _ | _ <;>
          exact ⟨_, by
            unfold DeleteRegionalUseCase.execute
            rw [if_neg h, hf]
            dsimp only
            rw [hd]⟩
  · intro verify_password generate_token user_repository user_dto
    by_cases h : user_dto.username = "" ∨ user_dto.password = ""
    · exact ⟨_, by unfold LoginUserUseCase.execute; rw [if_pos h]⟩
    · rcases hf : user_repository.find_by_username (pyStripLower user_dto.username) with _ | u
      · exact ⟨_, by unfold LoginUserUseCase.execute; rw [if_neg h, hf]⟩
      · by_cases hv : verify_password user_dto.password u.password = true
        · exact ⟨_, by
            unfold LoginUserUseCase.execute
            rw [if_neg h, hf]
            dsimp only
            rw [if_neg (by simp [hv])]⟩
        · exact ⟨_, by
            unfold LoginUserUseCase.execute
            rw [if_neg h, hf]
            dsimp only
            rw [if_pos (by simp [Bool.eq_false_iff.mpr hv])]⟩
  · intro cars car_id h
    unfold GetCarByIdUseCase.execute
    rw [h]
  · intro cars car_id h
    unfold DeleteCarUseCase.execute
    rw [h]
  · intro cars regionals n b m y p col pr rid reg msg code hreg hplate hcons
    unfold CreateCarUseCase.execute
    rw [hreg]
    dsimp only
    rw [hplate]
    dsimp only
    rw [hcons]

/-- Witness for C1 (amended): the theorem applied at concrete inputs —
an invalid Regional name converted to a failed Result, an absent car id
raising ValueError, an invalid car name escaping CreateCar as
DomainValidationError, and a concrete register call raising
AttributeError. -/
theorem claim_C1_witness :
    (∃ res, CreateRegionalUseCase.execute emptyRegionalRepository "A" = .ok res) ∧
    GetCarByIdUseCase.execute emptyCarRepository 7 =
      .error (.valueError "Car with ID 7 not found") ∧
    CreateCarUseCase.execute emptyCarRepository regionalRepositoryWithOne
        "AB" "Toyota" "Camry" 2020 "ABC-123" "Black" 500 1 =
      .error (.domainValidationError "Name must be between 3 and 100 characters"
        "INVALID_CAR_NAME") ∧
    RegisterUserUseCase.execute (fun p => p) emptyUserRepository
        { username := "carol", password := "Str0ngP@ss2" } =
      .error (.attributeError "CreateUserDTO" "confirm_password") :=
  ⟨claim_C1_amended_result_boundary.1 emptyRegionalRepository "A",
   claim_C1_amended_result_boundary.2.2.2.2.2.2.1 emptyCarRepository 7 (by rfl),
   claim_C1_amended_result_boundary.2.2.2.2.2.2.2.2.1 emptyCarRepository
     regionalRepositoryWithOne "AB" "Toyota" "Camry" 2020 "ABC-123" "Black" 500 1
     sampleRegional "Name must be between 3 and 100 characters" "INVALID_CAR_NAME"
     (by rfl) (by rfl) (by rfl),
   claim_C1_amended_result_boundary.2.2.2.2.2.2.2.2.2 (fun p => p) emptyUserRepository
     { username := "carol", password := "Str0ngP@ss2" }⟩
